import Mathlib

/-!
Shallow embedding of the order/cart core of the SOCIAL-MEDIA-SHOP backend
(src/smstore/store/): products, shopping carts, orders, order items and the
operations on them. Monetary values (Django DecimalField with 2 fractional
digits) are modelled as integers in the smallest currency unit; quantities
are integers (Python ints; the in-memory arithmetic of the reference code is
ordinary integer arithmetic). Database rows are modelled as Lean structures;
a one-to-many `X_set` relation is modelled as a list field.
-/

namespace SMStore

/-- Embeds `Product` (src/smstore/store/product.py): id, name, price,
inventory, units_sold, total_revenue.  Fields not touched by any claim
(store FK, description, image, timestamps) are omitted. -/
structure Product where
  id : Nat
  name : String
  price : Int
  inventory : Int
  units_sold : Int
  total_revenue : Int
  deriving DecidableEq, Repr

/-- Embeds `Product.update_stats(quantity_sold, revenue_made)`
(product.py lines 22-26): adds to units_sold and total_revenue
(the trailing `self.save()` is a no-op in the in-memory model). -/
def Product.update_stats (p : Product) (quantity_sold revenue_made : Int) : Product :=
  { p with units_sold := p.units_sold + quantity_sold,
           total_revenue := p.total_revenue + revenue_made }

/-- Embeds `CartItem` (shoppingcart.py lines 100-114): cart FK is implicit
(items live in their cart's list), product FK as productId, quantity and the
price snapshot taken at add time. -/
structure CartItem where
  productId : Nat
  quantity : Int
  price : Int
  deriving DecidableEq, Repr

/-- Embeds `CartItem.subtotal` (shoppingcart.py lines 111-114):
price times quantity. -/
def CartItem.subtotal (ci : CartItem) : Int := ci.price * ci.quantity

/-- Embeds `ShoppingCart` (shoppingcart.py lines 12-17) together with its
`cartitem_set` as the list `items`. -/
structure ShoppingCart where
  session_key : String
  storeId : Nat
  items : List CartItem
  deriving DecidableEq, Repr

/-- Updates the first element satisfying `p` with `f`, leaving the rest
unchanged.  Models a Django `queryset.get(...)` fetch followed by a field
mutation and `save()` of that single row (`.get` demands at most one match;
on the row sets where carts are used there is at most one CartItem per
product, so first-match update is the behaviour of the source). -/
def updateFirst {α : Type} (p : α → Bool) (f : α → α) : List α → List α
  | [] => []
  | x :: xs => if p x then f x :: xs else x :: updateFirst p f xs

/-- The quantity-increment applied by `add_item` when the product is already
in the cart (shoppingcart.py lines 26-28). -/
def incQty (quantity : Int) (ci : CartItem) : CartItem :=
  { ci with quantity := ci.quantity + quantity }

/-- Embeds `ShoppingCart.add_item(product, quantity)` (shoppingcart.py lines
22-35): if a CartItem for the product exists, increment its quantity;
otherwise create a new CartItem snapshotting `product.price`.  The Python
default `quantity=1` is supplied by callers here. -/
def ShoppingCart.add_item (c : ShoppingCart) (product : Product) (quantity : Int) :
    ShoppingCart :=
  if c.items.any (fun ci => ci.productId == product.id) then
    { c with items := updateFirst (fun ci => ci.productId == product.id) (incQty quantity) c.items }
  else
    { c with items := c.items ++ [{ productId := product.id, quantity := quantity, price := product.price }] }

/-- Embeds `ShoppingCart.remove_item(product)` (shoppingcart.py lines 37-43):
delete the CartItem for the product if present, else do nothing. -/
def ShoppingCart.remove_item (c : ShoppingCart) (product : Product) : ShoppingCart :=
  { c with items := c.items.eraseP (fun ci => ci.productId == product.id) }

/-- The quantity overwrite applied by `update_quantity` on an existing line
(shoppingcart.py lines 52-53). -/
def setQty (quantity : Int) (ci : CartItem) : CartItem :=
  { ci with quantity := quantity }

/-- Embeds `ShoppingCart.update_quantity(product, quantity)` (shoppingcart.py
lines 45-61): when the CartItem exists, `quantity <= 0` deletes it and
otherwise its quantity is overwritten; when it does not exist, a positive
quantity creates a fresh CartItem at the product's current price and a
non-positive quantity does nothing. -/
def ShoppingCart.update_quantity (c : ShoppingCart) (product : Product) (quantity : Int) :
    ShoppingCart :=
  if c.items.any (fun ci => ci.productId == product.id) then
    if quantity ≤ 0 then
      { c with items := c.items.eraseP (fun ci => ci.productId == product.id) }
    else
      { c with items := updateFirst (fun ci => ci.productId == product.id) (setQty quantity) c.items }
  else
    if quantity > 0 then
      { c with items := c.items ++ [{ productId := product.id, quantity := quantity, price := product.price }] }
    else c

/-- Embeds `ShoppingCart.clear()` (shoppingcart.py lines 63-65): deletes all
CartItems, the cart row itself persists. -/
def ShoppingCart.clear (c : ShoppingCart) : ShoppingCart := { c with items := [] }

/-- Embeds `ShoppingCart.total()` (shoppingcart.py lines 67-69): sum of the
subtotals of all items. -/
def ShoppingCart.total (c : ShoppingCart) : Int := (c.items.map CartItem.subtotal).sum

/-! Helper lemmas about list membership, `updateFirst` and `eraseP`. -/

lemma any_pid_eq_false {l : List CartItem} {pid : Nat}
    (h : ∀ ci ∈ l, ci.productId ≠ pid) :
    l.any (fun ci => ci.productId == pid) = false := by
  simp only [List.any_eq_false, beq_iff_eq]
  exact h

lemma any_pid_eq_true_of_filter {l : List CartItem} {pid : Nat} {a : CartItem}
    (h : l.filter (fun ci => ci.productId == pid) = [a]) :
    l.any (fun ci => ci.productId == pid) = true := by
  have ha : a ∈ l.filter (fun ci => ci.productId == pid) := by
    rw [h]; exact List.mem_singleton.mpr rfl
  rw [List.mem_filter] at ha
  exact List.any_eq_true.mpr ⟨a, ha.1, ha.2⟩

lemma updateFirst_cons_pos {α : Type} (p : α → Bool) (f : α → α) (x : α) (xs : List α)
    (h : p x = true) : updateFirst p f (x :: xs) = f x :: xs := by
  simp [updateFirst, h]

lemma updateFirst_cons_neg {α : Type} (p : α → Bool) (f : α → α) (x : α) (xs : List α)
    (h : p x = false) : updateFirst p f (x :: xs) = x :: updateFirst p f xs := by
  simp [updateFirst, h]

lemma updateFirst_append_last {α : Type} {l : List α} {x : α} {p : α → Bool} {f : α → α}
    (hx : p x = true) (h : ∀ a ∈ l, p a = false) :
    updateFirst p f (l ++ [x]) = l ++ [f x] := by
  induction l with
  | nil => simp [updateFirst, hx]
  | cons y ys ih =>
      have hy : p y = false := h y (by simp)
      rw [List.cons_append, updateFirst_cons_neg _ _ _ _ hy,
        ih (fun a ha => h a (by simp [ha])), List.cons_append]

lemma eraseP_of_filter_singleton {l : List CartItem} {pred : CartItem → Bool} {a : CartItem}
    (h : l.filter pred = [a]) :
    (l.eraseP pred).filter pred = [] ∧ (l.eraseP pred).length + 1 = l.length := by
  induction l with
  | nil => simp at h
  | cons x xs ih =>
      by_cases hp : pred x
      · rw [List.filter_cons_of_pos hp] at h
        have hxs : xs.filter pred = [] := by injection h
        rw [List.eraseP_cons_of_pos hp]
        exact ⟨hxs, by simp⟩
      · have hp' : pred x = false := by simpa using hp
        rw [List.filter_cons_of_neg hp] at h
        obtain ⟨h1, h2⟩ := ih h
        rw [List.eraseP_cons_of_neg hp]
        constructor
        · rw [List.filter_cons_of_neg hp]; exact h1
        · simp only [List.length_cons]; omega

lemma updateFirst_filter_singleton {l : List CartItem} {pred : CartItem → Bool}
    {f : CartItem → CartItem} {a : CartItem}
    (h : l.filter pred = [a]) (hf : ∀ x, pred x = true → pred (f x) = true) :
    (updateFirst pred f l).filter pred = [f a] ∧
      (updateFirst pred f l).length = l.length := by
  induction l with
  | nil => simp at h
  | cons x xs ih =>
      by_cases hp : pred x
      · rw [List.filter_cons_of_pos hp] at h
        have hx : x = a := by injection h
        have hxs : xs.filter pred = [] := by injection h
        rw [updateFirst_cons_pos _ _ _ _ hp]
        constructor
        · rw [List.filter_cons_of_pos (hf x hp), hx, hxs]
        · simp
      · have hp' : pred x = false := by simpa using hp
        rw [List.filter_cons_of_neg hp] at h
        obtain ⟨h1, h2⟩ := ih h
        rw [updateFirst_cons_neg _ _ _ _ hp']
        constructor
        · rw [List.filter_cons_of_neg hp]; exact h1
        · simp [h2]

lemma add_item_items_of_present {c : ShoppingCart} {p : Product} {q : Int}
    (h : c.items.any (fun ci => ci.productId == p.id) = true) :
    (c.add_item p q).items
      = updateFirst (fun ci => ci.productId == p.id) (incQty q) c.items := by
  simp [ShoppingCart.add_item, h]

lemma add_item_items_of_absent {c : ShoppingCart} {p : Product} {q : Int}
    (h : c.items.any (fun ci => ci.productId == p.id) = false) :
    (c.add_item p q).items
      = c.items ++ [{ productId := p.id, quantity := q, price := p.price }] := by
  simp [ShoppingCart.add_item, h]

/-! Claim C3: cart merge. -/

/-- Claim C3: for every cart with no line for the product yet, adding the
product with quantity q1 and then again (possibly after a price change on the
product, modelled by a second product value p' with the same id) with
quantity q2, both at least 1, yields exactly one CartItem for that product,
with quantity q1 + q2 and with the price snapshotted at the first add,
unaffected by the intervening price change. -/
theorem C3_cart_merge (c : ShoppingCart) (p p' : Product) (q1 q2 : Int)
    (habs : ∀ ci ∈ c.items, ci.productId ≠ p.id)
    (hid : p'.id = p.id) (h1 : 1 ≤ q1) (h2 : 1 ≤ q2) :
    ((c.add_item p q1).add_item p' q2).items.filter (fun ci => ci.productId == p.id)
      = [{ productId := p.id, quantity := q1 + q2, price := p.price }] := by
  have hany : c.items.any (fun ci => ci.productId == p.id) = false := any_pid_eq_false habs
  have step1 : (c.add_item p q1).items
      = c.items ++ [{ productId := p.id, quantity := q1, price := p.price }] :=
    add_item_items_of_absent hany
  have hany2 : ((c.add_item p q1).items).any (fun ci => ci.productId == p'.id) = true := by
    rw [step1, hid]
    simp [List.any_append]
  have step2 : ((c.add_item p q1).add_item p' q2).items
      = c.items ++ [{ productId := p.id, quantity := q1 + q2, price := p.price }] := by
    rw [add_item_items_of_present hany2, step1, hid]
    rw [updateFirst_append_last (by simp) (by
      intro a ha
      simpa using habs a ha)]
    rfl
  rw [step2, List.filter_append]
  rw [List.filter_eq_nil_iff.mpr (by
    intro a ha
    simpa using habs a ha)]
  simp

/-- Witness for C3 at a concrete input: an empty cart, a product with id 1
and price 10, a later price change to 99, quantities 2 and 3. -/
theorem C3_cart_merge_witness :
    (∀ ci ∈ (⟨"s1", 1, []⟩ : ShoppingCart).items, ci.productId ≠ 1) ∧
    (((⟨"s1", 1, []⟩ : ShoppingCart).add_item ⟨1, "P", 10, 5, 0, 0⟩ 2).add_item
        ⟨1, "P", 99, 5, 0, 0⟩ 3).items.filter (fun ci => ci.productId == 1)
      = [{ productId := 1, quantity := 2 + 3, price := 10 }] :=
  ⟨by decide, C3_cart_merge ⟨"s1", 1, []⟩ ⟨1, "P", 10, 5, 0, 0⟩ ⟨1, "P", 99, 5, 0, 0⟩ 2 3
    (by decide) rfl (by decide) (by decide)⟩

/-! Claims C8 and C10: update_quantity. -/

/-- Claim C8 (amended): for a cart holding exactly one line for the product,
`update_quantity` deletes the line whenever the requested quantity is at most
zero — including strictly negative quantities, which the model method deletes
rather than rejecting with a ValidationError — and for a positive quantity
overwrites the line's quantity while leaving its price untouched, keeping
exactly one line for the product. -/
theorem C8_update_quantity (c : ShoppingCart) (p : Product) (q : Int) (a : CartItem)
    (h : c.items.filter (fun ci => ci.productId == p.id) = [a]) :
    (q ≤ 0 →
      (c.update_quantity p q).items.filter (fun ci => ci.productId == p.id) = [] ∧
      (c.update_quantity p q).items.length + 1 = c.items.length) ∧
    (0 < q →
      (c.update_quantity p q).items.filter (fun ci => ci.productId == p.id)
        = [{ productId := a.productId, quantity := q, price := a.price }] ∧
      (c.update_quantity p q).items.length = c.items.length) := by
  have hany : c.items.any (fun ci => ci.productId == p.id) = true :=
    any_pid_eq_true_of_filter h
  constructor
  · intro hq
    have hitems : (c.update_quantity p q).items
        = c.items.eraseP (fun ci => ci.productId == p.id) := by
      simp [ShoppingCart.update_quantity, hany, hq]
    rw [hitems]
    exact eraseP_of_filter_singleton h
  · intro hq
    have hq' : ¬ q ≤ 0 := by omega
    have hitems : (c.update_quantity p q).items
        = updateFirst (fun ci => ci.productId == p.id) (setQty q) c.items := by
      simp [ShoppingCart.update_quantity, hany, hq']
    rw [hitems]
    have := updateFirst_filter_singleton h (f := setQty q) (by
      intro x hx
      simpa [setQty] using hx)
    simpa [setQty] using this

/-- Witness for C8 at a concrete input: a cart holding the single line
(product 1, quantity 2, price 10); deletion at q = 0 and overwrite at q = 7. -/
theorem C8_update_quantity_witness :
    ((⟨"s1", 1, [⟨1, 2, 10⟩]⟩ : ShoppingCart).items.filter (fun ci => ci.productId == 1)
        = [⟨1, 2, 10⟩]) ∧
    ((0 : Int) ≤ 0 →
      ((⟨"s1", 1, [⟨1, 2, 10⟩]⟩ : ShoppingCart).update_quantity ⟨1, "P", 10, 5, 0, 0⟩ 0).items.filter
          (fun ci => ci.productId == 1) = [] ∧
      ((⟨"s1", 1, [⟨1, 2, 10⟩]⟩ : ShoppingCart).update_quantity ⟨1, "P", 10, 5, 0, 0⟩ 0).items.length + 1
        = (⟨"s1", 1, [⟨1, 2, 10⟩]⟩ : ShoppingCart).items.length) :=
  ⟨by decide,
    (C8_update_quantity ⟨"s1", 1, [⟨1, 2, 10⟩]⟩ ⟨1, "P", 10, 5, 0, 0⟩ 0 ⟨1, 2, 10⟩ (by decide)).1⟩

/-- Counterexample for C8 as originally stated: on a cart holding the line
(product 1, quantity 2, price 10), calling update_quantity with the negative
quantity -1 does not fail with a ValidationError — the call returns normally
and the line is deleted, exactly as for quantity 0. -/
theorem C8_negative_deletes_counterexample :
    ((⟨"s1", 1, [⟨1, 2, 10⟩]⟩ : ShoppingCart).update_quantity ⟨1, "P", 10, 5, 0, 0⟩ (-1)).items
      = [] := by decide

/-- Claim C10: for a cart with no line for the product, update_quantity with a
positive quantity creates a new CartItem for the product with that quantity
and the product's current price — neither an error nor a no-op. -/
theorem C10_update_quantity_creates (c : ShoppingCart) (p : Product) (q : Int)
    (habs : ∀ ci ∈ c.items, ci.productId ≠ p.id) (hq : 0 < q) :
    (c.update_quantity p q).items
      = c.items ++ [{ productId := p.id, quantity := q, price := p.price }] := by
  have hany : c.items.any (fun ci => ci.productId == p.id) = false := any_pid_eq_false habs
  simp [ShoppingCart.update_quantity, hany, hq]

/-- Witness for C10 at a concrete input: a cart holding only a line for
product 2, and product 1 with price 10, quantity 4. -/
theorem C10_update_quantity_creates_witness :
    (∀ ci ∈ (⟨"s1", 1, [⟨2, 1, 5⟩]⟩ : ShoppingCart).items, ci.productId ≠ 1) ∧
    ((⟨"s1", 1, [⟨2, 1, 5⟩]⟩ : ShoppingCart).update_quantity ⟨1, "P", 10, 5, 0, 0⟩ 4).items
      = (⟨"s1", 1, [⟨2, 1, 5⟩]⟩ : ShoppingCart).items ++ [{ productId := 1, quantity := 4, price := 10 }] :=
  ⟨by decide,
    C10_update_quantity_creates ⟨"s1", 1, [⟨2, 1, 5⟩]⟩ ⟨1, "P", 10, 5, 0, 0⟩ 4 (by decide) (by decide)⟩

/-! Order code generation (order.py lines 13-38). -/

/-- Embeds the Python format expression `f"{day_of_year:02d}"` (order.py
line 17): the decimal digits of the day, left-padded with zeros to a minimum
width of two. -/
def dayStr (d : Nat) : String := if d < 10 then "0" ++ toString d else toString d

/-- The checksum alphabet literal of order.py line 30. -/
def orderAlphabet : List Char := "0123456789ABCDEFGHIJKLMNOPQRSTUVWXYZ".data

/-- Embeds `OrderManager.generate_order_code(store)` (order.py lines 13-38)
for one attempt of the collision-retry loop: the day of year and the two
random alphanumeric characters drawn by `random.choices` are passed in
explicitly (on a collision the source recurses, which amounts to re-running
this function on a fresh random draw).  The store prefix is
`store.name[:2].upper()`, the base code is prefix ++ day ++ random part, and
the final character is the checksum `alphabet[sum(ord(c)) % 36]` over the
base code.  The `getD` default is unreachable: the index is below 36, the
alphabet length. -/
def generate_order_code (storeName : String) (dayOfYear : Nat) (r1 r2 : Char) : String :=
  let day_str := dayStr dayOfYear
  let storePre := String.mk ((storeName.data.take 2).map Char.toUpper)
  let base_code := storePre ++ day_str ++ String.mk [r1, r2]
  let checksum_value := (base_code.data.map Char.toNat).sum % 36
  base_code.push (orderAlphabet.getD checksum_value 'X')

set_option maxRecDepth 4096 in
lemma toString_nat_length :
    ∀ d < 367, (toString d).length = (if d < 10 then 1 else if d < 100 then 2 else 3) := by
  decide

lemma dayStr_length {d : Nat} (h2 : d ≤ 366) :
    (dayStr d).length = if d < 100 then 2 else 3 := by
  have h := toString_nat_length d (by omega)
  unfold dayStr
  by_cases h10 : d < 10
  · rw [if_pos h10, String.length_append]
    simp only [h10, if_pos] at h
    rw [h, show "0".length = 1 from rfl]
    simp [show d < 100 by omega]
  · rw [if_neg h10, h]
    simp [h10]

lemma generate_order_code_data (name : String) (d : Nat) (r1 r2 : Char) :
    (generate_order_code name d r1 r2).data
      = (name.data.take 2).map Char.toUpper ++ (dayStr d).data ++ [r1, r2]
        ++ [orderAlphabet.getD
              ((((name.data.take 2).map Char.toUpper ++ (dayStr d).data ++ [r1, r2]).map
                Char.toNat).sum % 36) 'X'] := by
  show (String.mk ((name.data.take 2).map Char.toUpper) ++ dayStr d ++ String.mk [r1, r2]).data
        ++ [_] = _
  simp [String.data_append, List.append_assoc]

/-! Claim C4: order code shape. -/

/-- Counterexample for C4 as originally stated: with store name "Acme", day
of year 5 and random characters 'A', 'B', the generated code is the
7-character string "AC05AB4" — the day of year is zero-padded to two digits,
not three, so the code does not have exactly 8 characters. -/
theorem C4_order_code_counterexample :
    generate_order_code "Acme" 5 'A' 'B' = "AC05AB4" ∧
      (generate_order_code "Acme" 5 'A' 'B').length ≠ 8 := by
  constructor
  · rfl
  · decide

/-- Claim C4 (amended): for every store name of at least two characters and
every day of the year, the generated code is the uppercased two-character
prefix of the store name, followed by the day-of-year zero-padded to two
digits (three digits occur naturally for days at least 100), followed by the
two random characters, followed by one checksum character equal to
'0123456789ABCDEFGHIJKLMNOPQRSTUVWXYZ'[sum of the character codes of all the
preceding characters mod 36]; the total length is 7 for days below 100 and 8
otherwise.  (For store names shorter than 2 characters the prefix is the full
uppercased name and the code is correspondingly shorter.) -/
theorem C4_order_code_amended (name : String) (d : Nat) (r1 r2 : Char)
    (h1 : 1 ≤ d) (h2 : d ≤ 366) (hn : 2 ≤ name.length) :
    (generate_order_code name d r1 r2).data
        = (name.data.take 2).map Char.toUpper ++ (dayStr d).data ++ [r1, r2]
          ++ [orderAlphabet.getD
                ((((name.data.take 2).map Char.toUpper ++ (dayStr d).data ++ [r1, r2]).map
                  Char.toNat).sum % 36) 'X'] ∧
      (dayStr d).length = (if d < 100 then 2 else 3) ∧
      (generate_order_code name d r1 r2).length = (if d < 100 then 7 else 8) := by
  have hday : (dayStr d).length = (if d < 100 then 2 else 3) := dayStr_length h2
  refine ⟨generate_order_code_data name d r1 r2, hday, ?_⟩
  have hlen : (generate_order_code name d r1 r2).length
      = (generate_order_code name d r1 r2).data.length := rfl
  rw [hlen, generate_order_code_data name d r1 r2]
  simp only [List.length_append, List.length_map, List.length_take, List.length_cons,
    List.length_nil]
  have hnd : name.data.length = name.length := rfl
  have hdd : (dayStr d).data.length = (dayStr d).length := rfl
  rw [hnd, hdd, hday]
  by_cases h100 : d < 100 <;> simp [h100] <;> omega

/-- Witness for C4 (amended) at a concrete input: store name "Acme", day 42,
random characters 'Z', '9'. -/
theorem C4_order_code_amended_witness :
    (generate_order_code "Acme" 42 'Z' '9').data
        = ("Acme".data.take 2).map Char.toUpper ++ (dayStr 42).data ++ ['Z', '9']
          ++ [orderAlphabet.getD
                (((("Acme".data.take 2).map Char.toUpper ++ (dayStr 42).data ++ ['Z', '9']).map
                  Char.toNat).sum % 36) 'X'] ∧
      (dayStr 42).length = (if 42 < 100 then 2 else 3) ∧
      (generate_order_code "Acme" 42 'Z' '9').length = (if 42 < 100 then 7 else 8) :=
  C4_order_code_amended "Acme" 42 'Z' '9' (by decide) (by decide) (by decide)

/-! Order items and orders (orderitem.py, order.py). -/

/-- Embeds `OrderItem` (orderitem.py lines 7-26): order FK implicit (items
live in their order's list), product FK as productId, quantity, original
price snapshot, and the nullable renegotiated final_price. -/
structure OrderItem where
  productId : Nat
  quantity : Int
  price : Int
  final_price : Option Int
  deriving DecidableEq, Repr

/-- Embeds `OrderItem.save` (orderitem.py lines 22-26): if final_price is not
set, it is defaulted to the original price before the row is persisted. -/
def OrderItem.save (oi : OrderItem) : OrderItem :=
  if oi.final_price = none then { oi with final_price := some oi.price } else oi

/-- Embeds `OrderItem.objects.create(order=..., product=..., quantity=...,
price=...)` as used by `convert_to_order` (shoppingcart.py lines 84-89):
Django `create` builds the row with final_price unset and immediately calls
`save`, which defaults final_price to price. -/
def OrderItem.create (productId : Nat) (quantity price : Int) : OrderItem :=
  OrderItem.save { productId := productId, quantity := quantity, price := price,
                   final_price := none }

/-- Embeds `Order` (order.py lines 41-70) together with its `orderitem_set`
as the list `items`.  The status is a plain string exactly as in the source
(any value is accepted); timestamps are abstract clock ticks. -/
structure Order where
  storeId : Nat
  customer_name : String
  customer_phone : String
  delivery_location : String
  order_code : String
  total_amount : Int
  final_total_amount : Option Int
  status : String
  notes : String
  placed_at : Nat
  fulfilled_at : Option Nat
  items : List OrderItem
  deriving DecidableEq, Repr

/-- Embeds `Order.save` (order.py lines 75-88) for an already-created order:
if the status is 'fulfilled' and fulfilled_at is not yet set, stamp
fulfilled_at with the current time and, when final_total_amount is unset,
default it to total_amount.  (The order-code generation of lines 76-78 runs
only for a brand-new row; at creation the generated code is supplied through
the `code` argument of `convert_to_order` below.) -/
def Order.save (o : Order) (now : Nat) : Order :=
  if o.status = "fulfilled" ∧ o.fulfilled_at = none then
    { o with fulfilled_at := some now,
             final_total_amount :=
               if o.final_total_amount = none then some o.total_amount
               else o.final_total_amount }
  else o

/-- The per-item product mutation of `Order.mark_fulfilled` (order.py lines
102-106): `product.inventory -= item.quantity` followed by
`product.update_stats(item.quantity, item.final_price * item.quantity)`,
where `fp` is the item's final_price. -/
def fulfillItem (it : OrderItem) (fp : Int) (p : Product) : Product :=
  Product.update_stats { p with inventory := p.inventory - it.quantity }
    it.quantity (fp * it.quantity)

/-- The fulfillment loop of `Order.mark_fulfilled` (order.py lines 102-106)
over the product table `ps`: each order item fetches its product row and
persists the mutated row.  A missing final_price makes the Python expression
`item.final_price * item.quantity` raise, modelled by `none`. -/
def fulfillItems : List OrderItem → List Product → Option (List Product)
  | [], ps => some ps
  | it :: rest, ps =>
      match it.final_price with
      | none => none
      | some fp =>
          fulfillItems rest
            (updateFirst (fun p => p.id == it.productId) (fulfillItem it fp) ps)

/-- Embeds `Order.mark_fulfilled(final_amount=None)` (order.py lines 90-106):
sets status to 'fulfilled', sets final_total_amount to final_amount when
given and to total_amount otherwise, overwrites fulfilled_at with the current
time, saves the order, then runs the per-item product bookkeeping over the
product table `ps`. -/
def Order.mark_fulfilled (o : Order) (now : Nat) (final_amount : Option Int)
    (ps : List Product) : Option (Order × List Product) :=
  let o1 : Order := { o with status := "fulfilled",
                             final_total_amount := some (final_amount.getD o.total_amount),
                             fulfilled_at := some now }
  let o2 := o1.save now
  (fulfillItems o.items ps).map (fun ps2 => (o2, ps2))

/-- Sum of the quantities of the order items referencing product `pid`. -/
def qtyFor (items : List OrderItem) (pid : Nat) : Int :=
  ((items.filter (fun it => it.productId == pid)).map (fun it => it.quantity)).sum

/-- Sum of final_price times quantity over the order items referencing
product `pid` (final_price read with default 0; the fulfillment theorems
assume every final_price is set, as `OrderItem.save` guarantees). -/
def revFor (items : List OrderItem) (pid : Nat) : Int :=
  ((items.filter (fun it => it.productId == pid)).map
    (fun it => (it.final_price.getD 0) * it.quantity)).sum

/-- Specification-side description of one product row after fulfilling
`items`: inventory decremented by the summed quantity, units_sold incremented
by it, total_revenue incremented by the summed final subtotal. -/
def productAfter (items : List OrderItem) (p : Product) : Product :=
  { p with inventory := p.inventory - qtyFor items p.id,
           units_sold := p.units_sold + qtyFor items p.id,
           total_revenue := p.total_revenue + revFor items p.id }

lemma fulfillItem_id (it : OrderItem) (fp : Int) (p : Product) :
    (fulfillItem it fp p).id = p.id := rfl

lemma productAfter_nil (p : Product) : productAfter [] p = p := by
  simp [productAfter, qtyFor, revFor]

lemma updateFirst_eq_map_of_nodup (ps : List Product) (pid : Nat) (g : Product → Product)
    (hids : (ps.map Product.id).Nodup) :
    updateFirst (fun p => p.id == pid) g ps
      = ps.map (fun p => if p.id == pid then g p else p) := by
  induction ps with
  | nil => rfl
  | cons x xs ih =>
      rw [List.map_cons, List.nodup_cons] at hids
      by_cases hx : (x.id == pid) = true
      · rw [updateFirst_cons_pos _ g x xs hx, List.map_cons, if_pos hx]
        have hpid : x.id = pid := by simpa using hx
        have hrest : xs.map (fun p => if p.id == pid then g p else p) = xs := by
          refine (List.map_congr_left ?_).trans (List.map_id xs)
          intro a ha
          have hane : a.id ≠ pid := by
            intro hcontra
            exact hids.1 (by
              rw [← hpid] at hcontra
              rw [← hcontra]
              exact List.mem_map_of_mem Product.id ha)
          simp [hane]
        rw [hrest]
      · have hx' : (x.id == pid) = false := by simpa using hx
        rw [updateFirst_cons_neg _ g x xs hx', List.map_cons, if_neg (by simp [hx']),
          ih hids.2]

lemma productAfter_cons (it : OrderItem) (fp : Int) (rest : List OrderItem) (p : Product)
    (hfp : it.final_price = some fp) :
    productAfter (it :: rest) p
      = productAfter rest (if p.id == it.productId then fulfillItem it fp p else p) := by
  by_cases h : (p.id == it.productId) = true
  · have hid : it.productId = p.id := (eq_of_beq h).symm
    have hq : qtyFor (it :: rest) p.id = it.quantity + qtyFor rest p.id := by
      simp [qtyFor, List.filter_cons, hid]
    have hr : revFor (it :: rest) p.id = fp * it.quantity + revFor rest p.id := by
      simp [revFor, List.filter_cons, hid, hfp]
    rw [if_pos h]
    rcases p with ⟨i, n, pr, inv, us, tr⟩
    simp only [productAfter, fulfillItem, Product.update_stats] at hq hr ⊢
    simp only [Product.mk.injEq, true_and]
    refine ⟨?_, ?_, ?_⟩
    · rw [hq]; ring
    · rw [hq]; ring
    · rw [hr]; ring
  · have h' : (p.id == it.productId) = false := by simpa using h
    have hne : (it.productId == p.id) = false := by
      simp only [beq_eq_false_iff_ne] at h' ⊢
      exact fun hcontra => h' hcontra.symm
    rw [if_neg (by simp [h'])]
    simp only [productAfter, qtyFor, revFor, List.filter_cons, hne]
    simp

lemma fulfillItems_eq (items : List OrderItem) (ps : List Product)
    (hfp : ∀ it ∈ items, it.final_price ≠ none)
    (hids : (ps.map Product.id).Nodup) :
    fulfillItems items ps = some (ps.map (productAfter items)) := by
  induction items generalizing ps with
  | nil =>
      simp only [fulfillItems]
      refine congrArg some ?_
      refine ((List.map_congr_left (fun p _ => productAfter_nil p)).trans
        (List.map_id ps)).symm
  | cons it rest ih =>
      obtain ⟨fp, hfpit⟩ : ∃ fp, it.final_price = some fp := by
        cases hcase : it.final_price with
        | none => exact absurd hcase (hfp it (by simp))
        | some v => exact ⟨v, rfl⟩
      simp only [fulfillItems, hfpit]
      rw [updateFirst_eq_map_of_nodup ps it.productId (fulfillItem it fp) hids]
      have hids2 : ((ps.map (fun p => if p.id == it.productId then fulfillItem it fp p else p)).map
          Product.id).Nodup := by
        rw [List.map_map]
        have hcomp : (Product.id ∘ fun p => if p.id == it.productId then fulfillItem it fp p else p)
            = Product.id := by
          funext p
          by_cases h : p.id = it.productId
          · simp [h, fulfillItem_id]
          · simp [h]
        rw [hcomp]
        exact hids
      rw [ih _ (fun a ha => hfp a (by simp [ha])) hids2, List.map_map]
      refine congrArg _ (List.map_congr_left ?_)
      intro p _
      exact (productAfter_cons it fp rest p hfpit).symm

/-! Claim C1: fulfillment bookkeeping. -/

/-- Claim C1: for every order whose items all carry a final_price (as every
item created through `OrderItem.save` does) over a product table with
distinct product ids, `mark_fulfilled` sets status to 'fulfilled', sets
final_total_amount to the given final_amount (or to total_amount when no
final_amount is given), and rewrites every product row so that its inventory
is decremented by the quantities of the order items referencing it, its
units_sold is incremented by the same amount, and its total_revenue is
incremented by final_price times quantity summed over those items. -/
theorem C1_mark_fulfilled_bookkeeping (o : Order) (now : Nat) (fa : Option Int)
    (ps : List Product)
    (hfp : ∀ it ∈ o.items, it.final_price ≠ none)
    (hids : (ps.map Product.id).Nodup) :
    o.mark_fulfilled now fa ps
      = some ({ o with status := "fulfilled",
                       final_total_amount := some (fa.getD o.total_amount),
                       fulfilled_at := some now },
              ps.map (productAfter o.items)) := by
  unfold Order.mark_fulfilled
  rw [fulfillItems_eq o.items ps hfp hids]
  simp [Order.save]

/-- Concrete order for the C1 witness, matching the spec's P4 example:
items (product 1, qty 3, final price 10) and (product 2, qty 1, final
price 5). -/
def exOrderC1 : Order :=
  { storeId := 1, customer_name := "Jane", customer_phone := "555-1000",
    delivery_location := "1 Main St", order_code := "AC05AB4", total_amount := 35,
    final_total_amount := none, status := "placed", notes := "", placed_at := 0,
    fulfilled_at := none,
    items := [⟨1, 3, 10, some 10⟩, ⟨2, 1, 5, some 5⟩] }

/-- Concrete product table for the C1 witness. -/
def exProductsC1 : List Product :=
  [⟨1, "A", 10, 10, 0, 0⟩, ⟨2, "B", 5, 5, 0, 0⟩]

/-- Witness for C1 at the spec's P4 example: product 1 loses 3 units of
inventory and gains 3 units_sold and 30 revenue; product 2 analogously
with 1 and 5. -/
theorem C1_mark_fulfilled_bookkeeping_witness :
    (∀ it ∈ exOrderC1.items, it.final_price ≠ none) ∧
    (exProductsC1.map Product.id).Nodup ∧
    exOrderC1.mark_fulfilled 7 none exProductsC1
      = some ({ exOrderC1 with status := "fulfilled",
                               final_total_amount := some ((none : Option Int).getD exOrderC1.total_amount),
                               fulfilled_at := some 7 },
              exProductsC1.map (productAfter exOrderC1.items)) :=
  ⟨by decide, by decide,
    C1_mark_fulfilled_bookkeeping exOrderC1 7 none exProductsC1 (by decide) (by decide)⟩

/-! Claims C6 and C9: fulfilled_at stamping and the save invariant. -/

/-- Concrete already-fulfilled order used by the C6 counterexample:
fulfilled_at was stamped at tick 5. -/
def exOrderC6 : Order :=
  { storeId := 1, customer_name := "Jane", customer_phone := "555-1000",
    delivery_location := "1 Main St", order_code := "AC05AB4", total_amount := 100,
    final_total_amount := some 100, status := "fulfilled", notes := "", placed_at := 0,
    fulfilled_at := some 5, items := [] }

/-- Counterexample for C6 as originally stated: calling `mark_fulfilled`
again at tick 7 on an order whose fulfilled_at is already set to tick 5
overwrites fulfilled_at with 7 — the timestamp does not stay unchanged. -/
theorem C6_fulfilled_at_counterexample :
    exOrderC6.fulfilled_at = some 5 ∧
    (exOrderC6.mark_fulfilled 7 none []).map (fun r => r.1.fulfilled_at)
      = some (some 7) := by
  constructor
  · rfl
  · decide

/-- Claim C6 (amended): the `Order.save` path stamps fulfilled_at only when
it is still unset — a save of an order that already carries fulfilled_at
leaves it unchanged — but `mark_fulfilled` itself overwrites fulfilled_at
with the current time on every call, so a repeated `mark_fulfilled` moves
fulfilled_at to the later timestamp. -/
theorem C6_fulfilled_at_amended (o : Order) (now : Nat) (fa : Option Int)
    (ps : List Product) (r : Order × List Product)
    (hr : o.mark_fulfilled now fa ps = some r) :
    r.1.fulfilled_at = some now ∧
    (o.fulfilled_at ≠ none → (o.save now).fulfilled_at = o.fulfilled_at) := by
  constructor
  · unfold Order.mark_fulfilled at hr
    cases hcase : fulfillItems o.items ps with
    | none => rw [hcase] at hr; simp at hr
    | some ps2 =>
        rw [hcase] at hr
        have hr2 := (Option.some.injEq _ _).mp (by simpa using hr)
        rw [← hr2]
        simp [Order.save]
  · intro hne
    unfold Order.save
    by_cases hguard : o.status = "fulfilled" ∧ o.fulfilled_at = none
    · exact absurd hguard.2 hne
    · rw [if_neg hguard]

/-- Witness for C6 (amended) at a concrete input: re-fulfilling at tick 7 the
order already stamped at tick 5 produces the order re-stamped at tick 7. -/
theorem C6_fulfilled_at_amended_witness :
    exOrderC6.mark_fulfilled 7 none [] = some ({ exOrderC6 with fulfilled_at := some 7 }, []) ∧
    ({ exOrderC6 with fulfilled_at := some 7 }, ([] : List Product)).1.fulfilled_at = some 7 ∧
    (exOrderC6.fulfilled_at ≠ none → (exOrderC6.save 7).fulfilled_at = exOrderC6.fulfilled_at) := by
  have h := C6_fulfilled_at_amended exOrderC6 7 none []
    ({ exOrderC6 with fulfilled_at := some 7 }, []) (by decide)
  exact ⟨by decide, h.1, h.2⟩

/-- Concrete order for the C9 counterexample: status 'fulfilled', a stamped
fulfilled_at, but a null final_total_amount. -/
def exOrderC9 : Order :=
  { storeId := 1, customer_name := "Jane", customer_phone := "555-1000",
    delivery_location := "1 Main St", order_code := "AC05AB4", total_amount := 100,
    final_total_amount := none, status := "fulfilled", notes := "", placed_at := 0,
    fulfilled_at := some 3, items := [] }

/-- Counterexample for C9 as originally stated: saving an order whose status
is 'fulfilled' but whose fulfilled_at is already set leaves a null
final_total_amount in place — the defaulting to total_amount sits inside the
fulfilled_at-unset branch, so this order is persisted with status 'fulfilled'
and final_total_amount still null. -/
theorem C9_save_counterexample :
    exOrderC9.status = "fulfilled" ∧
    (exOrderC9.save 9).final_total_amount = none := by
  constructor
  · rfl
  · decide

/-- Claim C9 (amended): every save of an order with status 'fulfilled' leaves
a non-null fulfilled_at, and when fulfilled_at was still unset at save time
the save stamps it with the current time and defaults a null
final_total_amount to total_amount (an order already carrying fulfilled_at is
saved unchanged, so a null final_total_amount can survive in that case). -/
theorem C9_save_fulfilled_amended (o : Order) (now : Nat) (h : o.status = "fulfilled") :
    (o.save now).fulfilled_at ≠ none ∧
    (o.fulfilled_at = none →
      (o.save now).fulfilled_at = some now ∧
      (o.save now).final_total_amount = some (o.final_total_amount.getD o.total_amount)) := by
  constructor
  · cases hcase : o.fulfilled_at with
    | none => simp [Order.save, h, hcase]
    | some t =>
        have hguard : ¬ (o.status = "fulfilled" ∧ o.fulfilled_at = none) := by
          simp [hcase]
        simp [Order.save, hguard, hcase]
  · intro hnone
    have hguard : o.status = "fulfilled" ∧ o.fulfilled_at = none := ⟨h, hnone⟩
    constructor
    · simp [Order.save, hguard]
    · cases hfin : o.final_total_amount with
      | none => simp [Order.save, hguard, hfin]
      | some v => simp [Order.save, hguard, hfin]

/-- Witness for C9 (amended) at a concrete input: a freshly 'fulfilled' order
with fulfilled_at unset and final_total_amount unset, saved at tick 4. -/
theorem C9_save_fulfilled_amended_witness :
    ({ exOrderC9 with fulfilled_at := none }.status = "fulfilled") ∧
    (({ exOrderC9 with fulfilled_at := none }.save 4).fulfilled_at ≠ none ∧
      ({ exOrderC9 with fulfilled_at := none }.fulfilled_at = none →
        ({ exOrderC9 with fulfilled_at := none }.save 4).fulfilled_at = some 4 ∧
        ({ exOrderC9 with fulfilled_at := none }.save 4).final_total_amount
          = some (({ exOrderC9 with fulfilled_at := none }.final_total_amount).getD
              ({ exOrderC9 with fulfilled_at := none }.total_amount)))) :=
  ⟨by decide, C9_save_fulfilled_amended { exOrderC9 with fulfilled_at := none } 4 (by decide)⟩

/-! Cart-to-order conversion and checkout (shoppingcart.py lines 71-97 and
117-121, serializers.py lines 266-284). -/

/-- Embeds `ShoppingCart.convert_to_order(customer_name, customer_phone,
delivery_location)` (shoppingcart.py lines 71-97).  `Order.objects.create`
saves a new row with default status 'placed'; the unique order code that
`Order.save` generates for a brand-new row (order.py lines 76-78, via the
random draw of `generate_order_code`) is supplied as `code`.  That save fires
the `post_save` receiver `order_created_notification` (shoppingcart.py lines
117-121), which calls `send_notification_email` — the first entry of the
returned notification log.  Then one OrderItem per CartItem is created
(copying product, quantity, price; `OrderItem.save` fills final_price), the
cart is cleared, and `order.send_notification_email()` is called explicitly —
the second log entry.  The result is the order, the emptied cart and the log
of notification emails sent, each entry recording the order code it was sent
for. -/
def ShoppingCart.convert_to_order (c : ShoppingCart) (code : String) (now : Nat)
    (customer_name customer_phone delivery_location : String) :
    Order × ShoppingCart × List String :=
  let o0 : Order :=
    { storeId := c.storeId, customer_name := customer_name,
      customer_phone := customer_phone, delivery_location := delivery_location,
      order_code := code, total_amount := c.total, final_total_amount := none,
      status := "placed", notes := "", placed_at := now, fulfilled_at := none, items := [] }
  let o1 := o0.save now
  let sent1 := [o1.order_code]
  let o2 : Order :=
    { o1 with items := c.items.map (fun ci => OrderItem.create ci.productId ci.quantity ci.price) }
  let c2 := c.clear
  let sent2 := sent1 ++ [o2.order_code]
  (o2, c2, sent2)

/-- The error raised by `CheckoutSerializer.create` on an empty cart
(serializers.py lines 274-275). -/
inductive CheckoutError where
  | validationError
  deriving DecidableEq, Repr

/-- Embeds `CheckoutSerializer.create` (serializers.py lines 271-284), the
checkout path of the system: raise ValidationError when the cart has no
items, otherwise run `convert_to_order`. -/
def checkout (c : ShoppingCart) (code : String) (now : Nat)
    (customer_name customer_phone delivery_location : String) :
    Except CheckoutError (Order × ShoppingCart × List String) :=
  if c.items.isEmpty then Except.error CheckoutError.validationError
  else Except.ok (c.convert_to_order code now customer_name customer_phone delivery_location)

/-! Claim C2: checkout atomicity and the shape of the created order. -/

/-- Counterexample for C2 as originally stated: converting a cart holding the
line (product 1, quantity 2, price 10) yields an order whose single OrderItem
has final_price = some 10 — `OrderItem.save` defaults final_price to price at
creation, so final_price is NOT left unset on the created items. -/
theorem C2_final_price_counterexample :
    (((⟨"s1", 1, [⟨1, 2, 10⟩]⟩ : ShoppingCart).convert_to_order "AC05AB4" 0
        "Jane" "555-1000" "1 Main St").1.items).map (fun oi => oi.final_price)
      = [some 10] := by rfl

/-- Claim C2 (amended): for every non-empty cart, after convert_to_order the
source cart has zero CartItems, the new order's total_amount equals the
cart's total before checkout, and the order has exactly one OrderItem per
prior CartItem with matching product, quantity and price — with final_price
on each created OrderItem set equal to its price by the `OrderItem.save`
defaulting hook, not left unset. -/
theorem C2_checkout_shape_amended (c : ShoppingCart) (code : String) (now : Nat)
    (customer_name customer_phone delivery_location : String) (h : c.items ≠ []) :
    (c.convert_to_order code now customer_name customer_phone delivery_location).2.1.items
        = [] ∧
    (c.convert_to_order code now customer_name customer_phone delivery_location).1.total_amount
        = c.total ∧
    (c.convert_to_order code now customer_name customer_phone delivery_location).1.items
        = c.items.map (fun ci =>
            { productId := ci.productId, quantity := ci.quantity, price := ci.price,
              final_price := some ci.price }) := by
  refine ⟨by rfl, by simp [ShoppingCart.convert_to_order, Order.save], ?_⟩
  show c.items.map (fun ci => OrderItem.create ci.productId ci.quantity ci.price) = _
  exact List.map_congr_left (fun ci _ => rfl)

/-- Witness for C2 (amended) at a concrete input: a cart holding the lines
(product 1, qty 2, price 10) and (product 2, qty 1, price 5). -/
theorem C2_checkout_shape_amended_witness :
    ((⟨"s1", 1, [⟨1, 2, 10⟩, ⟨2, 1, 5⟩]⟩ : ShoppingCart).items ≠ []) ∧
    (((⟨"s1", 1, [⟨1, 2, 10⟩, ⟨2, 1, 5⟩]⟩ : ShoppingCart).convert_to_order "AC05AB4" 0
        "Jane" "555-1000" "1 Main St").2.1.items = [] ∧
    ((⟨"s1", 1, [⟨1, 2, 10⟩, ⟨2, 1, 5⟩]⟩ : ShoppingCart).convert_to_order "AC05AB4" 0
        "Jane" "555-1000" "1 Main St").1.total_amount
      = (⟨"s1", 1, [⟨1, 2, 10⟩, ⟨2, 1, 5⟩]⟩ : ShoppingCart).total ∧
    ((⟨"s1", 1, [⟨1, 2, 10⟩, ⟨2, 1, 5⟩]⟩ : ShoppingCart).convert_to_order "AC05AB4" 0
        "Jane" "555-1000" "1 Main St").1.items
      = (⟨"s1", 1, [⟨1, 2, 10⟩, ⟨2, 1, 5⟩]⟩ : ShoppingCart).items.map (fun ci =>
          { productId := ci.productId, quantity := ci.quantity, price := ci.price,
            final_price := some ci.price })) :=
  ⟨by decide,
    C2_checkout_shape_amended ⟨"s1", 1, [⟨1, 2, 10⟩, ⟨2, 1, 5⟩]⟩ "AC05AB4" 0
      "Jane" "555-1000" "1 Main St" (by decide)⟩

/-! Claim C5: notification count per checkout. -/

/-- Claim C5 is violated by the code: every `convert_to_order` call emits the
order-creation notification email twice for the same order — once from the
`post_save` signal receiver `order_created_notification` when
`Order.objects.create` saves the new order, and once from the explicit
`order.send_notification_email()` call at the end of `convert_to_order`. -/
theorem C5_notification_sent_twice (c : ShoppingCart) (code : String) (now : Nat)
    (customer_name customer_phone delivery_location : String) :
    (c.convert_to_order code now customer_name customer_phone delivery_location).2.2
      = [code, code] := by
  simp [ShoppingCart.convert_to_order, Order.save]

/-! Claim C7: empty-cart checkout. -/

/-- Claim C7: for every cart with zero items, checkout fails with
ValidationError (raised before any order is built — the error result carries
no order and leaves every row untouched). -/
theorem C7_empty_cart_checkout (c : ShoppingCart) (code : String) (now : Nat)
    (customer_name customer_phone delivery_location : String) (h : c.items = []) :
    checkout c code now customer_name customer_phone delivery_location
      = Except.error CheckoutError.validationError := by
  simp [checkout, h]

/-- Witness for C7 at a concrete input: an empty cart for session "s1". -/
theorem C7_empty_cart_checkout_witness :
    ((⟨"s1", 1, []⟩ : ShoppingCart).items = []) ∧
    checkout ⟨"s1", 1, []⟩ "AC05AB4" 0 "Jane" "555-1000" "1 Main St"
      = Except.error CheckoutError.validationError :=
  ⟨rfl, C7_empty_cart_checkout ⟨"s1", 1, []⟩ "AC05AB4" 0 "Jane" "555-1000" "1 Main St" rfl⟩

end SMStore
